import Mathlib

/-!
Shallow embedding of `src/nlp/analise_nlp_spacy_lemma_parsing_chunks.py`.

The script loads a pre-trained spaCy model, reads one UTF-8 text file, and
writes four output files (a token CSV, a noun-chunk list, a named-entity
list and an HTML dependency visualization).  The external model is opaque
to the script, so it is embedded as an arbitrary function from text to an
annotated document; the file system is an association list from path to
entry, where a write prepends (later bindings shadow earlier ones, i.e.
total overwrite).  File contents are Lean `String`s, standing for the
UTF-8 decoded text the Python code reads and writes with
`encoding="utf-8"`.
-/

/-- One spaCy token with the eight attributes the script exports
(`token.text`, `token.lemma_`, `token.pos_`, `token.tag_`, `token.dep_`,
`token.shape_`, `token.is_alpha`, `token.is_stop`). -/
structure Token where
  text : String
  lemma_ : String
  pos_ : String
  tag_ : String
  dep_ : String
  shape_ : String
  is_alpha : Bool
  is_stop : Bool
deriving DecidableEq, Repr

/-- A named entity span: `ent.text` and `ent.label_`. -/
structure Ent where
  text : String
  label_ : String
deriving DecidableEq, Repr

/-- The annotated document returned by the model: an ordered token
sequence, the noun-chunk surface texts in document order, and the entity
spans in document order. -/
structure Doc where
  tokens : List Token
  noun_chunks : List String
  ents : List Ent
deriving DecidableEq, Repr

/-- The external pre-trained model: `nlp` maps raw text to a `Doc`
(the call `nlp(text)`), and `render` is `displacy.render(doc, style="dep",
page=True)`.  Both are opaque to the script. -/
structure Model where
  nlp : String → Doc
  render : Doc → String

/-- A file-system entry: a directory, a regular file whose bytes decode as
UTF-8 (with the decoded text), or a regular file whose bytes do not. -/
inductive Entry where
  | dir : Entry
  | utf8file (content : String) : Entry
  | binfile : Entry
deriving DecidableEq, Repr

/-- The file system: an association list path ↦ entry; the first binding
for a path is the current one. -/
def FS : Type := List (String × Entry)

instance : DecidableEq FS := by unfold FS; infer_instance

/-- `os.path.exists` / reading: the current entry at a path. -/
def FS.lookup (fs : FS) (p : String) : Option Entry :=
  List.lookup p fs

/-- `open(p, "w")` + write: total overwrite of the entry at `p`. -/
def FS.write (fs : FS) (p : String) (c : String) : FS :=
  (p, Entry.utf8file c) :: fs

/-- Python exception kinds relevant to this script. -/
inductive PyError where
  | importError : PyError
  | osError : PyError
  | isADirectoryError : PyError
  | unicodeDecodeError : PyError
  | calledProcessError : PyError
deriving DecidableEq, Repr

/-- `open(p, "r", encoding="utf-8")` followed by `.read()`: succeeds on a
UTF-8 regular file, raises `IsADirectoryError` on a directory and
`UnicodeDecodeError` on undecodable bytes. -/
def readUtf8 : Entry → Except PyError String
  | Entry.utf8file c => Except.ok c
  | Entry.dir => Except.error PyError.isADirectoryError
  | Entry.binfile => Except.error PyError.unicodeDecodeError

/-- Python `str(bool)`: how pandas serializes a boolean cell. -/
def pyBool (b : Bool) : String :=
  if b then "True" else "False"

/-- Python `sep.join(items)`. -/
def pyJoin (sep : String) : List String → String
  | [] => ""
  | [s] => s
  | s :: t :: rest => s ++ sep ++ pyJoin sep (t :: rest)

/-- The `analyses` dictionary of the script: eight column lists filled in
parallel, one append per token. -/
structure Analyses where
  Texto : List String
  Lema : List String
  POS : List String
  Tag : List String
  Dep : List String
  Shape : List String
  Alfabetico : List Bool
  Stopword : List Bool
deriving DecidableEq, Repr

/-- The dictionary as initialized: eight empty lists. -/
def emptyAnalyses : Analyses :=
  ⟨[], [], [], [], [], [], [], []⟩

/-- One iteration of the `for token in doc` loop: append the token's
attributes to the eight column lists. -/
def appendToken (a : Analyses) (t : Token) : Analyses :=
  { Texto := a.Texto ++ [t.text]
    Lema := a.Lema ++ [t.lemma_]
    POS := a.POS ++ [t.pos_]
    Tag := a.Tag ++ [t.tag_]
    Dep := a.Dep ++ [t.dep_]
    Shape := a.Shape ++ [t.shape_]
    Alfabetico := a.Alfabetico ++ [t.is_alpha]
    Stopword := a.Stopword ++ [t.is_stop] }

/-- The whole collection loop over the document's tokens. -/
def collectAnalyses (tokens : List Token) : Analyses :=
  tokens.foldl appendToken emptyAnalyses

/-- Row-wise traversal of the eight equal-length columns, as
`pd.DataFrame(analyses)` arranges them (dict insertion order). -/
def zip8 : List String → List String → List String → List String →
    List String → List String → List String → List String →
    List (List String)
  | a :: as, b :: bs, c :: cs, d :: ds, e :: es, f :: fs, g :: gs, h :: hs =>
      [a, b, c, d, e, f, g, h] :: zip8 as bs cs ds es fs gs hs
  | _, _, _, _, _, _, _, _ => []

/-- The data rows of the DataFrame built from the eight columns; boolean
cells are serialized as Python `str(bool)`. -/
def dfRows (a : Analyses) : List (List String) :=
  zip8 a.Texto a.Lema a.POS a.Tag a.Dep a.Shape
    (a.Alfabetico.map pyBool) (a.Stopword.map pyBool)

/-- The row of cells that the export produces for one token: its eight
attributes in column order, booleans serialized as Python `str(bool)`. -/
def tokenRow (t : Token) : List String :=
  [t.text, t.lemma_, t.pos_, t.tag_, t.dep_, t.shape_,
   pyBool t.is_alpha, pyBool t.is_stop]

/-- Minimal CSV quoting as `pandas.DataFrame.to_csv` applies it: a field is
quoted iff it contains a separator, quote or line break. -/
def needsQuote (s : String) : Bool :=
  s.data.any (fun c => c = ',' || c = '"' || c = '\n' || c = '\r')

/-- Serialize one CSV field (doubling embedded quotes when quoting). -/
def csvField (s : String) : String :=
  if needsQuote s then "\"" ++ s.replace "\"" "\"\"" ++ "\"" else s

/-- Serialize one CSV record. -/
def csvLine (fields : List String) : String :=
  pyJoin "," (fields.map csvField)

/-- The column names, in dict insertion order. -/
def headerFields : List String :=
  ["Texto", "Lema", "POS", "Tag", "Dep", "Shape", "Alfabético", "Stopword"]

/-- The serialized header record. -/
def headerLine : String :=
  csvLine headerFields

/-- Each record written to the stream followed by the line terminator. -/
def terminatedConcat : List String → String
  | [] => ""
  | l :: ls => l ++ "\n" ++ terminatedConcat ls

/-- `df.to_csv(..., index=False)`: header record then data records, each
terminated by the line terminator; no index column. -/
def csvContent (rows : List (List String)) : String :=
  terminatedConcat (headerLine :: rows.map csvLine)

/-- The line written per entity: `f"{ent.text} ({ent.label_})"`. -/
def entLine (e : Ent) : String :=
  e.text ++ " (" ++ e.label_ ++ ")"

/-- The observable outcome of one `process_text_file` call: the file
system afterwards, the lines printed, whether `spacy.load` was executed
inside the call, the paths whose open-and-read was attempted, and the
exception that escaped (`none` for a normal return). -/
structure RunResult where
  fs : FS
  printed : List String
  modelLoaded : Bool
  readPaths : List String
  error : Option PyError
deriving DecidableEq

/-- Message printed when the input path does not exist. -/
def notFoundMsg : String :=
  "O arquivo especificado não foi encontrado."

/-- Message printed after a successful export. -/
def doneMsg : String :=
  "Análise concluída! Os resultados foram salvos como arquivos."

/-- The fixed names of the four output files. -/
def outNames : List String :=
  ["analise_tokens.csv", "noun_chunks.txt", "entidades_nomeadas.txt",
   "visualizacao_dependencias.html"]

/-- Embedding of `process_text_file(file_path)`: existence check, model
load, UTF-8 read, one model call, then the four exports in order. -/
def process_text_file (m : Model) (fs : FS) (file_path : String) : RunResult :=
  match FS.lookup fs file_path with
  | none => ⟨fs, [notFoundMsg], false, [], none⟩
  | some entry =>
    match readUtf8 entry with
    | Except.error e => ⟨fs, [], true, [file_path], some e⟩
    | Except.ok text =>
      let doc := m.nlp text
      let fs1 := FS.write fs "analise_tokens.csv"
        (csvContent (dfRows (collectAnalyses doc.tokens)))
      let fs2 := FS.write fs1 "noun_chunks.txt"
        (pyJoin "\n" doc.noun_chunks)
      let fs3 := FS.write fs2 "entidades_nomeadas.txt"
        (pyJoin "\n" (doc.ents.map entLine))
      let fs4 := FS.write fs3 "visualizacao_dependencias.html"
        (m.render doc)
      ⟨fs4, [doneMsg], true, [file_path], none⟩

/-- What `ensure_dependencies` can observe of its environment: whether
`import spacy` and `import pandas` succeed and whether
`spacy.load("pt_core_news_sm")` succeeds. -/
structure Env where
  spacyImportable : Bool
  pandasImportable : Bool
  modelLoadable : Bool
deriving DecidableEq, Repr

/-- The two `subprocess.check_call` remediations, as opaque
environment-mutating actions that may fail (raise
`CalledProcessError`). -/
structure Provisioner where
  pipInstall : Env → Except PyError Env
  spacyDownload : Env → Except PyError Env

/-- Embedding of `ensure_dependencies()`: try the imports and the model
load; on `ImportError` print and run `pip install spacy pandas` then the
model download; on `OSError` print and run the model download; no
re-verification afterwards; a failing remediation propagates. -/
def ensure_dependencies (p : Provisioner) (env : Env) :
    Except PyError (Env × List String) :=
  if env.spacyImportable && env.pandasImportable then
    if env.modelLoadable then
      Except.ok (env, [])
    else
      match p.spacyDownload env with
      | Except.ok env1 => Except.ok (env1, ["Baixando modelo 'pt_core_news_sm'..."])
      | Except.error e => Except.error e
  else
    match p.pipInstall env with
    | Except.ok env1 =>
      match p.spacyDownload env1 with
      | Except.ok env2 => Except.ok (env2, ["Instalando dependências..."])
      | Except.error e => Except.error e
    | Except.error e => Except.error e

/-- Split a character list at each newline; a text with no newline is one
line, and each newline opens a further line (so a trailing newline yields a
trailing empty segment). -/
def splitNl : List Char → List (List Char)
  | [] => [[]]
  | c :: rest =>
    if c = '\n' then [] :: splitNl rest
    else
      match splitNl rest with
      | [] => [[c]]
      | l :: ls => (c :: l) :: ls

/-- The lines of a file, reading an empty file as having zero lines. -/
def linesOf (s : String) : List String :=
  if s.data = [] then [] else (splitNl s.data).map String.mk

/-- The number of lines of a file. -/
def lineCount (s : String) : Nat :=
  (linesOf s).length

/-- A string free of newline characters. -/
def noNl (s : String) : Prop :=
  ∀ c ∈ s.data, c ≠ '\n'

instance (s : String) : Decidable (noNl s) := by
  unfold noNl; infer_instance

/-- The `__main__` block and CPython exit behavior: `ensure_dependencies`,
then `process_text_file` on the prompted path; an unhandled exception
terminates the process with status 1, a normal return exits with 0. -/
def mainExitCode (p : Provisioner) (env : Env) (m : Model) (fs : FS)
    (file_path : String) : Nat :=
  match ensure_dependencies p env with
  | Except.error _ => 1
  | Except.ok _ =>
    match (process_text_file m fs file_path).error with
    | some _ => 1
    | none => 0

/-- A small concrete annotated document, used to evaluate the theorems on
a closed input. -/
def docW : Doc :=
  ⟨[⟨"O", "o", "DET", "DET", "det", "X", true, true⟩,
    ⟨"gato", "gato", "NOUN", "NOUN", "nsubj", "xxxx", true, false⟩],
   ["O gato"], [⟨"O gato", "MISC"⟩]⟩

/-- A concrete model returning `docW` on every text. -/
def modelW : Model :=
  ⟨fun _ => docW, fun _ => "<html/>"⟩

/-- A concrete file system holding one readable input file. -/
def fsW : FS :=
  [("in.txt", Entry.utf8file "O gato")]

/-! ### Lemmas about line splitting and joining -/

lemma splitNl_ne_nil (l : List Char) : splitNl l ≠ [] := by
  cases l with
  | nil => simp [splitNl]
  | cons c rest =>
    unfold splitNl
    by_cases h : c = '\n'
    · simp [h]
    · simp only [h, if_false]
      cases splitNl rest with
      | nil => simp
      | cons x xs => simp

lemma splitNl_of_noNl (l : List Char) (h : ∀ c ∈ l, c ≠ '\n') :
    splitNl l = [l] := by
  induction l with
  | nil => rfl
  | cons c rest ih =>
    have hc : c ≠ '\n' := h c (List.mem_cons_self c rest)
    have hrest : splitNl rest = [rest] :=
      ih (fun x hx => h x (List.mem_cons_of_mem c hx))
    unfold splitNl
    simp [hc, hrest]

lemma splitNl_cons (c : Char) (rest : List Char) :
    splitNl (c :: rest) =
      if c = '\n' then [] :: splitNl rest
      else
        match splitNl rest with
        | [] => [[c]]
        | l :: ls => (c :: l) :: ls := rfl

lemma splitNl_append (a b : List Char) (h : ∀ c ∈ a, c ≠ '\n') :
    splitNl (a ++ '\n' :: b) = a :: splitNl b := by
  induction a with
  | nil => simp [splitNl]
  | cons c a' ih =>
    have hc : c ≠ '\n' := h c (List.mem_cons_self c a')
    have ha' : splitNl (a' ++ '\n' :: b) = a' :: splitNl b :=
      ih (fun x hx => h x (List.mem_cons_of_mem c hx))
    have hstep : (c :: a') ++ '\n' :: b = c :: (a' ++ '\n' :: b) := rfl
    rw [hstep, splitNl_cons, if_neg hc, ha']

lemma data_pyJoin_cons (s t : String) (rest : List String) :
    (pyJoin "\n" (s :: t :: rest)).data =
      s.data ++ '\n' :: (pyJoin "\n" (t :: rest)).data := by
  show (s ++ "\n" ++ pyJoin "\n" (t :: rest)).data = _
  rw [String.data_append, String.data_append, List.append_assoc]
  rfl

lemma map_mk_splitNl_pyJoin (strs : List String) (h : strs ≠ [])
    (hn : ∀ s ∈ strs, noNl s) :
    (splitNl (pyJoin "\n" strs).data).map String.mk = strs := by
  induction strs with
  | nil => exact absurd rfl h
  | cons s rest ih =>
    cases rest with
    | nil =>
      have hs : splitNl s.data = [s.data] :=
        splitNl_of_noNl s.data (hn s (List.mem_cons_self s []))
      show (splitNl s.data).map String.mk = [s]
      rw [hs]
      rfl
    | cons t rest' =>
      rw [data_pyJoin_cons,
        splitNl_append _ _ (hn s (List.mem_cons_self s (t :: rest')))]
      have := ih (by simp) (fun x hx => hn x (List.mem_cons_of_mem s hx))
      simp only [List.map_cons, this]

lemma data_eq_nil_iff (s : String) : s.data = [] ↔ s = "" := by
  constructor
  · intro h
    cases s with
    | mk d => cases h; rfl
  · intro h; rw [h]

lemma linesOf_pyJoin (strs : List String) (hn : ∀ s ∈ strs, noNl s)
    (h : strs ≠ [""]) : linesOf (pyJoin "\n" strs) = strs := by
  cases strs with
  | nil => rfl
  | cons s rest =>
    cases rest with
    | nil =>
      have hs : s ≠ "" := by intro hs; exact h (by rw [hs])
      have hd : (pyJoin "\n" [s]).data ≠ [] := by
        show s.data ≠ []
        intro hc
        exact hs ((data_eq_nil_iff s).mp hc)
      unfold linesOf
      rw [if_neg hd]
      exact map_mk_splitNl_pyJoin [s] (by simp) hn
    | cons t rest' =>
      have hd : (pyJoin "\n" (s :: t :: rest')).data ≠ [] := by
        rw [data_pyJoin_cons]
        simp
      unfold linesOf
      rw [if_neg hd]
      exact map_mk_splitNl_pyJoin (s :: t :: rest') (by simp) hn

lemma getLast?_pyJoin (strs : List String) (h : strs ≠ [])
    (hl : (strs.getLast h).data ≠ []) :
    (pyJoin "\n" strs).data.getLast? = (strs.getLast h).data.getLast? := by
  induction strs with
  | nil => exact absurd rfl h
  | cons s rest ih =>
    cases rest with
    | nil => rfl
    | cons t rest' =>
      have hlast : (s :: t :: rest').getLast h = (t :: rest').getLast (by simp) := by
        simp [List.getLast]
      rw [data_pyJoin_cons, List.getLast?_append_cons, hlast]
      have htail : (pyJoin "\n" (t :: rest')).data ≠ [] := by
        cases rest' with
        | nil =>
          show t.data ≠ []
          intro hc
          apply hl
          rw [hlast]
          exact hc
        | cons r rest'' =>
          rw [data_pyJoin_cons]
          simp
      have ihr := ih (by simp) (by rw [← hlast]; exact hl)
      cases htl : (pyJoin "\n" (t :: rest')).data with
      | nil => exact absurd htl htail
      | cons x xs =>
        have : ('\n' :: x :: xs).getLast? = (x :: xs).getLast? :=
          List.getLast?_append_cons ['\n'] x xs
        rw [htl] at ihr
        rw [this]
        exact ihr

/-! ### Lemmas about the column collection and the DataFrame rows -/

lemma foldl_appendToken (toks : List Token) (a : Analyses) :
    toks.foldl appendToken a =
      ⟨a.Texto ++ toks.map Token.text,
       a.Lema ++ toks.map Token.lemma_,
       a.POS ++ toks.map Token.pos_,
       a.Tag ++ toks.map Token.tag_,
       a.Dep ++ toks.map Token.dep_,
       a.Shape ++ toks.map Token.shape_,
       a.Alfabetico ++ toks.map Token.is_alpha,
       a.Stopword ++ toks.map Token.is_stop⟩ := by
  induction toks generalizing a with
  | nil => simp
  | cons t ts ih =>
    show (ts.foldl appendToken (appendToken a t)) = _
    rw [ih]
    simp [appendToken]

lemma collectAnalyses_eq (toks : List Token) :
    collectAnalyses toks =
      ⟨toks.map Token.text, toks.map Token.lemma_, toks.map Token.pos_,
       toks.map Token.tag_, toks.map Token.dep_, toks.map Token.shape_,
       toks.map Token.is_alpha, toks.map Token.is_stop⟩ := by
  show List.foldl appendToken emptyAnalyses toks = _
  rw [foldl_appendToken]
  rfl

lemma zip8_map {α : Type} (l : List α)
    (f1 f2 f3 f4 f5 f6 f7 f8 : α → String) :
    zip8 (l.map f1) (l.map f2) (l.map f3) (l.map f4)
        (l.map f5) (l.map f6) (l.map f7) (l.map f8) =
      l.map (fun x => [f1 x, f2 x, f3 x, f4 x, f5 x, f6 x, f7 x, f8 x]) := by
  induction l with
  | nil => rfl
  | cons x xs ih =>
    show zip8 (f1 x :: xs.map f1) (f2 x :: xs.map f2) (f3 x :: xs.map f3)
        (f4 x :: xs.map f4) (f5 x :: xs.map f5) (f6 x :: xs.map f6)
        (f7 x :: xs.map f7) (f8 x :: xs.map f8) = _
    rw [zip8, ih]
    rfl

lemma dfRows_collect (toks : List Token) :
    dfRows (collectAnalyses toks) = toks.map tokenRow := by
  rw [dfRows, collectAnalyses_eq]
  show zip8 (toks.map Token.text) (toks.map Token.lemma_)
      (toks.map Token.pos_) (toks.map Token.tag_) (toks.map Token.dep_)
      (toks.map Token.shape_) ((toks.map Token.is_alpha).map pyBool)
      ((toks.map Token.is_stop).map pyBool) = _
  rw [List.map_map, List.map_map]
  exact zip8_map toks _ _ _ _ _ _ _ _

/-! ### Lemmas about the file system and one run -/

lemma lookup_cons_self (fs : FS) (p : String) (e : Entry) :
    FS.lookup ((p, e) :: fs) p = some e := by
  simp [FS.lookup, List.lookup]

lemma lookup_cons_ne (fs : FS) (p q : String) (e : Entry) (h : q ≠ p) :
    FS.lookup ((p, e) :: fs) q = FS.lookup fs q := by
  have hb : (q == p) = false := beq_eq_false_iff_ne.mpr h
  simp [FS.lookup, List.lookup, hb]

lemma process_text_file_ok (m : Model) (fs : FS) (fp content : String)
    (h : FS.lookup fs fp = some (Entry.utf8file content)) :
    process_text_file m fs fp =
      ⟨("visualizacao_dependencias.html",
          Entry.utf8file (m.render (m.nlp content))) ::
       ("entidades_nomeadas.txt",
          Entry.utf8file (pyJoin "\n" ((m.nlp content).ents.map entLine))) ::
       ("noun_chunks.txt",
          Entry.utf8file (pyJoin "\n" (m.nlp content).noun_chunks)) ::
       ("analise_tokens.csv",
          Entry.utf8file (csvContent (dfRows (collectAnalyses
            (m.nlp content).tokens)))) :: fs,
       [doneMsg], true, [fp], none⟩ := by
  unfold process_text_file
  rw [h]
  rfl

/-! ### Further helper lemmas for the claim theorems -/

lemma csvContent_eq (rows : List (List String)) :
    csvContent rows = headerLine ++ "\n" ++ terminatedConcat (rows.map csvLine) :=
  rfl

lemma noNl_headerLine : noNl headerLine := by decide

lemma linesOf_head_csvContent (rows : List (List String)) :
    (linesOf (csvContent rows)).head? = some headerLine := by
  have hdata : (csvContent rows).data =
      headerLine.data ++ '\n' :: (terminatedConcat (rows.map csvLine)).data := by
    rw [csvContent_eq, String.data_append, String.data_append, List.append_assoc]
    rfl
  have hne : (csvContent rows).data ≠ [] := by
    rw [hdata]
    simp
  unfold linesOf
  rw [if_neg hne, hdata, splitNl_append _ _ noNl_headerLine]
  rfl

lemma entLine_ne_empty (e : Ent) : entLine e ≠ "" := by
  intro hc
  have := (data_eq_nil_iff (entLine e)).mpr hc
  rw [entLine, String.data_append, String.data_append, String.data_append] at this
  simp at this

/-- C1: on a nonexistent input path, `process_text_file` prints the
not-found message and returns normally, without loading the model, without
opening any file and with the file system unchanged (so none of the four
output files is created); if the bootstrap succeeded, the process then
exits with status 0. -/
theorem C1_missing_path_soft_failure (m : Model) (p : Provisioner)
    (env : Env) (fs : FS) (fp : String) (h : FS.lookup fs fp = none) :
    process_text_file m fs fp = ⟨fs, [notFoundMsg], false, [], none⟩ ∧
    ((∃ r, ensure_dependencies p env = Except.ok r) →
      mainExitCode p env m fs fp = 0) := by
  have hrun : process_text_file m fs fp = ⟨fs, [notFoundMsg], false, [], none⟩ := by
    unfold process_text_file
    rw [h]
  refine ⟨hrun, ?_⟩
  rintro ⟨r, hr⟩
  unfold mainExitCode
  rw [hr, hrun]

/-- Closed instance of C1: the empty file system misses `"input.txt"`. -/
theorem C1_witness :
    process_text_file ⟨fun _ => ⟨[], [], []⟩, fun _ => ""⟩ [] "input.txt" =
      ⟨[], [notFoundMsg], false, [], none⟩ ∧
    mainExitCode ⟨fun e => Except.ok e, fun e => Except.ok e⟩
      ⟨true, true, true⟩ ⟨fun _ => ⟨[], [], []⟩, fun _ => ""⟩ [] "input.txt" = 0 := by
  have h := C1_missing_path_soft_failure ⟨fun _ => ⟨[], [], []⟩, fun _ => ""⟩
    ⟨fun e => Except.ok e, fun e => Except.ok e⟩ ⟨true, true, true⟩ [] "input.txt" rfl
  exact ⟨h.1, h.2 ⟨(⟨true, true, true⟩, []), rfl⟩⟩

/-- C10: the only guarded input condition is path existence; when the path
exists but its open-and-read as UTF-8 text fails (a directory, or bytes in
another encoding), the soft-failure branch is not taken and the error
escapes `process_text_file` unhandled, after the model has already been
loaded and with no output file written; if the bootstrap succeeded, the
process then exits with a nonzero status. -/
theorem C10_unreadable_path_propagates (m : Model) (p : Provisioner)
    (env : Env) (fs : FS) (fp : String) (entry : Entry) (e : PyError)
    (hx : FS.lookup fs fp = some entry)
    (hr : readUtf8 entry = Except.error e) :
    process_text_file m fs fp = ⟨fs, [], true, [fp], some e⟩ ∧
    ((∃ r, ensure_dependencies p env = Except.ok r) →
      mainExitCode p env m fs fp = 1) := by
  have hrun : process_text_file m fs fp = ⟨fs, [], true, [fp], some e⟩ := by
    unfold process_text_file
    rw [hx]
    cases entry with
    | utf8file c => exact Except.noConfusion hr
    | dir =>
      simp only [readUtf8, Except.error.injEq] at hr
      subst hr
      rfl
    | binfile =>
      simp only [readUtf8, Except.error.injEq] at hr
      subst hr
      rfl
  refine ⟨hrun, ?_⟩
  rintro ⟨r, hok⟩
  unfold mainExitCode
  rw [hok, hrun]

/-- Closed instance of C10: the input path is a directory. -/
theorem C10_witness :
    process_text_file ⟨fun _ => ⟨[], [], []⟩, fun _ => ""⟩
      [("d", Entry.dir)] "d" =
      ⟨[("d", Entry.dir)], [], true, ["d"], some PyError.isADirectoryError⟩ ∧
    mainExitCode ⟨fun e => Except.ok e, fun e => Except.ok e⟩
      ⟨true, true, true⟩ ⟨fun _ => ⟨[], [], []⟩, fun _ => ""⟩
      [("d", Entry.dir)] "d" = 1 := by
  have h := C10_unreadable_path_propagates
    ⟨fun _ => ⟨[], [], []⟩, fun _ => ""⟩
    ⟨fun e => Except.ok e, fun e => Except.ok e⟩ ⟨true, true, true⟩
    [("d", Entry.dir)] "d" Entry.dir PyError.isADirectoryError rfl rfl
  exact ⟨h.1, h.2 ⟨(⟨true, true, true⟩, []), rfl⟩⟩

/-- C2: in every run that reaches the export, the token table written to
`analise_tokens.csv` has exactly one data row per token of the annotated
document, the rows appear in token (source-text) order, and each row is
that token's eight attributes (text, lemma, POS, tag, dependency label,
shape, is-alphabetic, is-stopword). -/
theorem C2_one_row_per_token (m : Model) (fs : FS) (fp content : String)
    (h : FS.lookup fs fp = some (Entry.utf8file content)) :
    FS.lookup (process_text_file m fs fp).fs "analise_tokens.csv" =
      some (Entry.utf8file (csvContent (dfRows (collectAnalyses
        (m.nlp content).tokens)))) ∧
    dfRows (collectAnalyses (m.nlp content).tokens) =
      (m.nlp content).tokens.map tokenRow ∧
    (dfRows (collectAnalyses (m.nlp content).tokens)).length =
      (m.nlp content).tokens.length := by
  refine ⟨?_, dfRows_collect _, ?_⟩
  · rw [process_text_file_ok m fs fp content h]
    rfl
  · rw [dfRows_collect]
    exact List.length_map _ _

/-- Closed instance of C2 on the two-token document `docW`. -/
theorem C2_witness :
    FS.lookup fsW "in.txt" = some (Entry.utf8file "O gato") ∧
    dfRows (collectAnalyses (modelW.nlp "O gato").tokens) =
      (modelW.nlp "O gato").tokens.map tokenRow ∧
    (dfRows (collectAnalyses (modelW.nlp "O gato").tokens)).length =
      (modelW.nlp "O gato").tokens.length :=
  ⟨rfl, (C2_one_row_per_token modelW fsW "in.txt" "O gato" rfl).2⟩

/-- C3: in every run that reaches the export, `analise_tokens.csv` is
written (UTF-8 decoded content) with the exact header record
`Texto,Lema,POS,Tag,Dep,Shape,Alfabético,Stopword` as its first line, and
every data row has exactly the eight attribute cells — no extra index
column. -/
theorem C3_csv_header (m : Model) (fs : FS) (fp content : String)
    (h : FS.lookup fs fp = some (Entry.utf8file content)) :
    FS.lookup (process_text_file m fs fp).fs "analise_tokens.csv" =
      some (Entry.utf8file (csvContent (dfRows (collectAnalyses
        (m.nlp content).tokens)))) ∧
    (linesOf (csvContent (dfRows (collectAnalyses
        (m.nlp content).tokens)))).head? =
      some "Texto,Lema,POS,Tag,Dep,Shape,Alfabético,Stopword" ∧
    ∀ r ∈ dfRows (collectAnalyses (m.nlp content).tokens), r.length = 8 := by
  refine ⟨?_, ?_, ?_⟩
  · rw [process_text_file_ok m fs fp content h]
    rfl
  · rw [linesOf_head_csvContent]
    rfl
  · rw [dfRows_collect]
    intro r hr
    rcases List.mem_map.mp hr with ⟨t, _, rfl⟩
    rfl

/-- Closed instance of C3 on the two-token document `docW`. -/
theorem C3_witness :
    FS.lookup fsW "in.txt" = some (Entry.utf8file "O gato") ∧
    (linesOf (csvContent (dfRows (collectAnalyses
        (modelW.nlp "O gato").tokens)))).head? =
      some "Texto,Lema,POS,Tag,Dep,Shape,Alfabético,Stopword" :=
  ⟨rfl, (C3_csv_header modelW fsW "in.txt" "O gato" rfl).2.1⟩

/-- C8: the `Alfabético` and `Stopword` cells of every data row are
boolean-valued (`"True"` or `"False"`), and two runs over the same input
text with the same model write identical token tables (two-run
determinism of the export). -/
theorem C8_flags_boolean_deterministic (m : Model) (fs1 fs2 : FS)
    (fp1 fp2 content : String)
    (h1 : FS.lookup fs1 fp1 = some (Entry.utf8file content))
    (h2 : FS.lookup fs2 fp2 = some (Entry.utf8file content)) :
    (∀ r ∈ dfRows (collectAnalyses (m.nlp content).tokens),
      (r[6]? = some "True" ∨ r[6]? = some "False") ∧
      (r[7]? = some "True" ∨ r[7]? = some "False")) ∧
    FS.lookup (process_text_file m fs1 fp1).fs "analise_tokens.csv" =
      FS.lookup (process_text_file m fs2 fp2).fs "analise_tokens.csv" := by
  constructor
  · rw [dfRows_collect]
    intro r hr
    rcases List.mem_map.mp hr with ⟨t, _, rfl⟩
    constructor
    · have h6 : (tokenRow t)[6]? = some (pyBool t.is_alpha) := rfl
      rw [h6]
      cases t.is_alpha
      · right; rfl
      · left; rfl
    · have h7 : (tokenRow t)[7]? = some (pyBool t.is_stop) := rfl
      rw [h7]
      cases t.is_stop
      · right; rfl
      · left; rfl
  · rw [process_text_file_ok m fs1 fp1 content h1,
      process_text_file_ok m fs2 fp2 content h2]
    rfl

/-- Closed instance of C8: the same text in two different file systems
yields the same token table. -/
theorem C8_witness :
    FS.lookup fsW "in.txt" = some (Entry.utf8file "O gato") ∧
    FS.lookup [("b.txt", Entry.utf8file "O gato")] "b.txt" =
      some (Entry.utf8file "O gato") ∧
    FS.lookup (process_text_file modelW fsW "in.txt").fs
        "analise_tokens.csv" =
      FS.lookup (process_text_file modelW
        [("b.txt", Entry.utf8file "O gato")] "b.txt").fs
        "analise_tokens.csv" :=
  ⟨rfl, rfl,
    (C8_flags_boolean_deterministic modelW fsW
      [("b.txt", Entry.utf8file "O gato")] "in.txt" "b.txt" "O gato"
      rfl rfl).2⟩

/-- C4 counterexample: for the entity span with surface text `"a\nb"` the
file `entidades_nomeadas.txt` holds one entity but two lines, and neither
line matches `<surface text> (<LABEL>)`, so the file's line count differs
from the number of entity spans. -/
theorem C4_counterexample :
    FS.lookup (process_text_file ⟨fun _ => ⟨[], [], [⟨"a\nb", "PER"⟩]⟩, fun _ => ""⟩
      [("in.txt", Entry.utf8file "t")] "in.txt").fs "entidades_nomeadas.txt" =
      some (Entry.utf8file "a\nb (PER)") ∧
    (⟨[], [], [⟨"a\nb", "PER"⟩]⟩ : Doc).ents.length = 1 ∧
    lineCount "a\nb (PER)" = 2 ∧
    linesOf "a\nb (PER)" = ["a", "b (PER)"] := by decide

/-- C4 (amended): provided no entity's exported line contains a newline
character, `entidades_nomeadas.txt` contains one line per entity, in
document order, each line exactly the entity's surface text followed by a
space and its label in parentheses, and its line count equals the number
of entity spans. -/
theorem C4_entity_lines (m : Model) (fs : FS) (fp content : String)
    (h : FS.lookup fs fp = some (Entry.utf8file content))
    (hn : ∀ e ∈ (m.nlp content).ents, noNl (entLine e)) :
    FS.lookup (process_text_file m fs fp).fs "entidades_nomeadas.txt" =
      some (Entry.utf8file (pyJoin "\n" ((m.nlp content).ents.map entLine))) ∧
    linesOf (pyJoin "\n" ((m.nlp content).ents.map entLine)) =
      (m.nlp content).ents.map entLine ∧
    lineCount (pyJoin "\n" ((m.nlp content).ents.map entLine)) =
      (m.nlp content).ents.length := by
  have hne : (m.nlp content).ents.map entLine ≠ [""] := by
    intro hc
    cases hents : (m.nlp content).ents with
    | nil => rw [hents] at hc; simp at hc
    | cons e es =>
      rw [hents] at hc
      simp only [List.map_cons] at hc
      injection hc with h1 h2
      exact entLine_ne_empty e h1
  have hlines : linesOf (pyJoin "\n" ((m.nlp content).ents.map entLine)) =
      (m.nlp content).ents.map entLine := by
    apply linesOf_pyJoin _ _ hne
    intro s hs
    rcases List.mem_map.mp hs with ⟨e, he, rfl⟩
    exact hn e he
  refine ⟨?_, hlines, ?_⟩
  · rw [process_text_file_ok m fs fp content h]
    rfl
  · unfold lineCount
    rw [hlines]
    exact List.length_map _ _

/-- Closed instance of the amended C4 on `docW` (one entity, one line). -/
theorem C4_witness :
    FS.lookup fsW "in.txt" = some (Entry.utf8file "O gato") ∧
    linesOf (pyJoin "\n" ((modelW.nlp "O gato").ents.map entLine)) =
      (modelW.nlp "O gato").ents.map entLine ∧
    lineCount (pyJoin "\n" ((modelW.nlp "O gato").ents.map entLine)) =
      (modelW.nlp "O gato").ents.length :=
  ⟨rfl, (C4_entity_lines modelW fsW "in.txt" "O gato" rfl (by decide)).2⟩

/-- C5 counterexample: for the noun-phrase span with surface text `"a\nb"`
the file `noun_chunks.txt` holds one noun phrase but two lines, so its
line count differs from the number of noun-phrase spans. -/
theorem C5_counterexample :
    FS.lookup (process_text_file ⟨fun _ => ⟨[], ["a\nb"], []⟩, fun _ => ""⟩
      [("in.txt", Entry.utf8file "t")] "in.txt").fs "noun_chunks.txt" =
      some (Entry.utf8file "a\nb") ∧
    (⟨[], ["a\nb"], []⟩ : Doc).noun_chunks.length = 1 ∧
    lineCount "a\nb" = 2 := by decide

/-- C5 (amended): provided no noun phrase's surface text contains a
newline character and the detected sequence is not the single empty-text
span, `noun_chunks.txt` contains each noun phrase's surface text on its
own line, in document order, newline-joined, and its line count equals
the number of noun-phrase spans. -/
theorem C5_chunk_lines (m : Model) (fs : FS) (fp content : String)
    (h : FS.lookup fs fp = some (Entry.utf8file content))
    (hn : ∀ c ∈ (m.nlp content).noun_chunks, noNl c)
    (hne : (m.nlp content).noun_chunks ≠ [""]) :
    FS.lookup (process_text_file m fs fp).fs "noun_chunks.txt" =
      some (Entry.utf8file (pyJoin "\n" (m.nlp content).noun_chunks)) ∧
    linesOf (pyJoin "\n" (m.nlp content).noun_chunks) =
      (m.nlp content).noun_chunks ∧
    lineCount (pyJoin "\n" (m.nlp content).noun_chunks) =
      (m.nlp content).noun_chunks.length := by
  have hlines : linesOf (pyJoin "\n" (m.nlp content).noun_chunks) =
      (m.nlp content).noun_chunks := linesOf_pyJoin _ hn hne
  refine ⟨?_, hlines, ?_⟩
  · rw [process_text_file_ok m fs fp content h]
    rfl
  · unfold lineCount
    rw [hlines]

/-- Closed instance of the amended C5 on `docW` (one chunk, one line). -/
theorem C5_witness :
    FS.lookup fsW "in.txt" = some (Entry.utf8file "O gato") ∧
    linesOf (pyJoin "\n" (modelW.nlp "O gato").noun_chunks) =
      (modelW.nlp "O gato").noun_chunks ∧
    lineCount (pyJoin "\n" (modelW.nlp "O gato").noun_chunks) =
      (modelW.nlp "O gato").noun_chunks.length :=
  ⟨rfl, (C5_chunk_lines modelW fsW "in.txt" "O gato" rfl (by decide)
    (by decide)).2⟩

/-- C9 counterexample: when the single noun-phrase text itself ends with a
newline, the written `noun_chunks.txt` does end with a terminating
newline, refuting the claimed consequence of newline-joining. -/
theorem C9_counterexample :
    FS.lookup (process_text_file ⟨fun _ => ⟨[], ["a\n"], []⟩, fun _ => ""⟩
      [("in.txt", Entry.utf8file "t")] "in.txt").fs "noun_chunks.txt" =
      some (Entry.utf8file "a\n") ∧
    ("a\n").data.getLast? = some '\n' := by decide

/-- C9 (amended): the noun-phrase and entity files are written as the
newline-join of their items; with zero items the file is still created,
as an empty file; and provided the last item is nonempty and does not end
with a newline character, the file carries no terminating newline. -/
theorem C9_join_semantics (m : Model) (fs : FS) (fp content : String)
    (h : FS.lookup fs fp = some (Entry.utf8file content)) :
    FS.lookup (process_text_file m fs fp).fs "noun_chunks.txt" =
      some (Entry.utf8file (pyJoin "\n" (m.nlp content).noun_chunks)) ∧
    FS.lookup (process_text_file m fs fp).fs "entidades_nomeadas.txt" =
      some (Entry.utf8file (pyJoin "\n" ((m.nlp content).ents.map entLine))) ∧
    ((m.nlp content).noun_chunks = [] →
      FS.lookup (process_text_file m fs fp).fs "noun_chunks.txt" =
        some (Entry.utf8file "")) ∧
    ((m.nlp content).ents = [] →
      FS.lookup (process_text_file m fs fp).fs "entidades_nomeadas.txt" =
        some (Entry.utf8file "")) ∧
    (∀ (hch : (m.nlp content).noun_chunks ≠ []),
      (m.nlp content).noun_chunks.getLast hch ≠ "" →
      ((m.nlp content).noun_chunks.getLast hch).data.getLast? ≠ some '\n' →
      (pyJoin "\n" (m.nlp content).noun_chunks).data.getLast? ≠ some '\n') ∧
    (∀ (hes : (m.nlp content).ents.map entLine ≠ []),
      ((m.nlp content).ents.map entLine).getLast hes ≠ "" →
      (((m.nlp content).ents.map entLine).getLast hes).data.getLast? ≠
        some '\n' →
      (pyJoin "\n" ((m.nlp content).ents.map entLine)).data.getLast? ≠
        some '\n') := by
  have hrun := process_text_file_ok m fs fp content h
  refine ⟨?_, ?_, ?_, ?_, ?_, ?_⟩
  · rw [hrun]; rfl
  · rw [hrun]; rfl
  · intro hc; rw [hrun, hc]; rfl
  · intro hc; rw [hrun, hc]; rfl
  · intro hch hne hcn
    have hl : ((m.nlp content).noun_chunks.getLast hch).data ≠ [] := by
      intro hnil
      exact hne ((data_eq_nil_iff _).mp hnil)
    rw [getLast?_pyJoin _ hch hl]
    exact hcn
  · intro hes hne hcn
    have hl : (((m.nlp content).ents.map entLine).getLast hes).data ≠ [] := by
      intro hnil
      exact hne ((data_eq_nil_iff _).mp hnil)
    rw [getLast?_pyJoin _ hes hl]
    exact hcn

/-- Closed instance of the amended C9: zero chunks and zero entities still
create both files, empty; and on `docW`, whose last chunk is nonempty and
not newline-terminated, the written join carries no terminating newline. -/
theorem C9_witness :
    FS.lookup fsW "in.txt" = some (Entry.utf8file "O gato") ∧
    FS.lookup (process_text_file ⟨fun _ => ⟨[], [], []⟩, fun _ => ""⟩
      fsW "in.txt").fs "noun_chunks.txt" = some (Entry.utf8file "") ∧
    FS.lookup (process_text_file ⟨fun _ => ⟨[], [], []⟩, fun _ => ""⟩
      fsW "in.txt").fs "entidades_nomeadas.txt" = some (Entry.utf8file "") ∧
    (pyJoin "\n" (modelW.nlp "O gato").noun_chunks).data.getLast? ≠
      some '\n' :=
  ⟨rfl,
   (C9_join_semantics ⟨fun _ => ⟨[], [], []⟩, fun _ => ""⟩ fsW "in.txt"
     "O gato" rfl).2.2.1 rfl,
   (C9_join_semantics ⟨fun _ => ⟨[], [], []⟩, fun _ => ""⟩ fsW "in.txt"
     "O gato" rfl).2.2.2.1 rfl,
   (C9_join_semantics modelW fsW "in.txt" "O gato" rfl).2.2.2.2.1
     (by decide) (by decide) (by decide)⟩

/-- C6: `ensure_dependencies` distinguishes exactly two recoverable
failure kinds — `ImportError` (library not importable) triggers
`pip install spacy pandas` followed by the model download, and `OSError`
(model not loadable) triggers the model download alone — and after a
successful remediation it returns without re-verifying (the returned
environment is whatever the remediation produced, checked no further);
any failure of a remediation step itself propagates unhandled. -/
theorem C6_two_failure_kinds (p : Provisioner) (env : Env) :
    ((env.spacyImportable && env.pandasImportable) = false →
      (∀ e, p.pipInstall env = Except.error e →
        ensure_dependencies p env = Except.error e) ∧
      (∀ env1, p.pipInstall env = Except.ok env1 →
        (∀ e, p.spacyDownload env1 = Except.error e →
          ensure_dependencies p env = Except.error e) ∧
        (∀ env2, p.spacyDownload env1 = Except.ok env2 →
          ensure_dependencies p env =
            Except.ok (env2, ["Instalando dependências..."])))) ∧
    ((env.spacyImportable && env.pandasImportable) = true →
      env.modelLoadable = false →
      (∀ e, p.spacyDownload env = Except.error e →
        ensure_dependencies p env = Except.error e) ∧
      (∀ env1, p.spacyDownload env = Except.ok env1 →
        ensure_dependencies p env =
          Except.ok (env1, ["Baixando modelo 'pt_core_news_sm'..."]))) ∧
    ((env.spacyImportable && env.pandasImportable) = true →
      env.modelLoadable = true →
      ensure_dependencies p env = Except.ok (env, [])) := by
  refine ⟨?_, ?_, ?_⟩
  · intro himp
    refine ⟨?_, ?_⟩
    · intro e he
      simp [ensure_dependencies, himp, he]
    · intro env1 h1
      refine ⟨?_, ?_⟩
      · intro e he
        simp [ensure_dependencies, himp, h1, he]
      · intro env2 h2
        simp [ensure_dependencies, himp, h1, h2]
  · intro himp hml
    refine ⟨?_, ?_⟩
    · intro e he
      simp [ensure_dependencies, himp, hml, he]
    · intro env1 h1
      simp [ensure_dependencies, himp, hml, h1]
  · intro himp hml
    simp [ensure_dependencies, himp, hml]

/-- Closed instance of C6: with the libraries importable but the model not
loadable, the download remediation runs once and the function returns
success without re-verifying, even though the model is still not
loadable afterwards. -/
theorem C6_witness :
    ensure_dependencies ⟨fun e => Except.ok e, fun e => Except.ok e⟩
      ⟨true, true, false⟩ =
      Except.ok (⟨true, true, false⟩,
        ["Baixando modelo 'pt_core_news_sm'..."]) ∧
    (⟨true, true, false⟩ : Env).modelLoadable = false :=
  ⟨((C6_two_failure_kinds ⟨fun e => Except.ok e, fun e => Except.ok e⟩
      ⟨true, true, false⟩).2.1 rfl rfl).2 ⟨true, true, false⟩ rfl, rfl⟩

/-- C7 counterexample: when the prompted input path is itself one of the
four output paths (here `noun_chunks.txt`), two consecutive runs on the
same input path in the same environment, with a deterministic model,
write different contents to that output file. -/
theorem C7_counterexample :
    FS.lookup (process_text_file ⟨fun t => ⟨[], [t ++ "y"], []⟩, fun _ => ""⟩
      [("noun_chunks.txt", Entry.utf8file "x")] "noun_chunks.txt").fs
      "noun_chunks.txt" = some (Entry.utf8file "xy") ∧
    FS.lookup (process_text_file ⟨fun t => ⟨[], [t ++ "y"], []⟩, fun _ => ""⟩
      (process_text_file ⟨fun t => ⟨[], [t ++ "y"], []⟩, fun _ => ""⟩
        [("noun_chunks.txt", Entry.utf8file "x")] "noun_chunks.txt").fs
      "noun_chunks.txt").fs "noun_chunks.txt" =
      some (Entry.utf8file "xyy") := by decide

/-- C7 (amended): provided the input path is not one of the four output
paths, running the pipeline twice on the same input in the same
environment leaves all four output files with identical contents, and the
contents written are independent of whatever the four output paths held
before (total overwrite — no append, no merge with prior runs). -/
theorem C7_idempotent_overwrite (m : Model) (fs fs' : FS)
    (fp content : String)
    (h : FS.lookup fs fp = some (Entry.utf8file content))
    (h' : FS.lookup fs' fp = some (Entry.utf8file content))
    (h1 : fp ≠ "analise_tokens.csv") (h2 : fp ≠ "noun_chunks.txt")
    (h3 : fp ≠ "entidades_nomeadas.txt")
    (h4 : fp ≠ "visualizacao_dependencias.html") :
    (∀ name ∈ outNames,
      FS.lookup (process_text_file m (process_text_file m fs fp).fs fp).fs
          name =
        FS.lookup (process_text_file m fs fp).fs name) ∧
    (∀ name ∈ outNames,
      FS.lookup (process_text_file m fs' fp).fs name =
        FS.lookup (process_text_file m fs fp).fs name) := by
  have hpres : FS.lookup (process_text_file m fs fp).fs fp =
      some (Entry.utf8file content) := by
    rw [process_text_file_ok m fs fp content h]
    rw [lookup_cons_ne _ _ _ _ h4, lookup_cons_ne _ _ _ _ h3,
      lookup_cons_ne _ _ _ _ h2, lookup_cons_ne _ _ _ _ h1]
    exact h
  constructor
  · intro name hname
    rw [process_text_file_ok m (process_text_file m fs fp).fs fp content hpres,
      process_text_file_ok m fs fp content h]
    simp only [outNames, List.mem_cons, List.not_mem_nil, or_false] at hname
    rcases hname with rfl | rfl | rfl | rfl <;> rfl
  · intro name hname
    rw [process_text_file_ok m fs' fp content h',
      process_text_file_ok m fs fp content h]
    simp only [outNames, List.mem_cons, List.not_mem_nil, or_false] at hname
    rcases hname with rfl | rfl | rfl | rfl <;> rfl

/-- Closed instance of the amended C7: a second run, and a run from a
different prior file system, both leave `noun_chunks.txt` identical. -/
theorem C7_witness :
    FS.lookup fsW "in.txt" = some (Entry.utf8file "O gato") ∧
    FS.lookup (process_text_file modelW
        (process_text_file modelW fsW "in.txt").fs "in.txt").fs
        "noun_chunks.txt" =
      FS.lookup (process_text_file modelW fsW "in.txt").fs
        "noun_chunks.txt" ∧
    FS.lookup (process_text_file modelW
        [("in.txt", Entry.utf8file "O gato"), ("z", Entry.dir)] "in.txt").fs
        "noun_chunks.txt" =
      FS.lookup (process_text_file modelW fsW "in.txt").fs
        "noun_chunks.txt" := by
  have hc := C7_idempotent_overwrite modelW fsW
    [("in.txt", Entry.utf8file "O gato"), ("z", Entry.dir)] "in.txt"
    "O gato" rfl rfl (by decide) (by decide) (by decide) (by decide)
  exact ⟨rfl, hc.1 "noun_chunks.txt" (by decide),
    hc.2 "noun_chunks.txt" (by decide)⟩
